import Mathlib

/-!
Verification of the moh-pipeline transform engine and observability subsystem.

The transform engine is embedded from src/transform/clean_and_unpivot.py.
A cell of a raw CSV table is modelled by its text, with `none` standing for a
missing value (pandas NaN); this is adequate because every operation the code
applies to a cell (str conversion, NaN tests, numeric coercion) factors
through the textual form of the cell.
-/

/-- A cell: `none` is a missing value (NaN), `some s` a cell whose text is `s`. -/
abbrev Cell : Type := Option String

/-- Python `str.strip()` on the character list: leading and trailing whitespace
removed. -/
def trimChars (cs : List Char) : List Char :=
  ((cs.dropWhile Char.isWhitespace).reverse.dropWhile Char.isWhitespace).reverse

/-- Python `str.strip()`. -/
def strTrim (s : String) : String :=
  String.mk (trimChars s.data)

/-- Python `str.split(sep)` for a one-character separator, with the python
semantics: the empty string yields one empty part, a trailing separator
yields a trailing empty part. -/
def splitOnCharGo (c : Char) : List Char → List Char → List String
  | [], acc => [String.mk acc.reverse]
  | x :: xs, acc =>
    if x == c then String.mk acc.reverse :: splitOnCharGo c xs []
    else splitOnCharGo c xs (x :: acc)

def splitOnChar (c : Char) (s : String) : List String :=
  splitOnCharGo c s.data []

/-- Python `str(x)` as applied by `astype(str)`: NaN renders as the text nan. -/
def strOfCell : Cell → String
  | none => "nan"
  | some s => s

/-- One qualifying cell of the header scan, from line 27 of
clean_and_unpivot.py: the string form contains a slash and some digit. -/
def isPeriodCell (x : Cell) : Bool :=
  (strOfCell x).data.contains '/' && (strOfCell x).data.any Char.isDigit

/-- A row qualifies as header row when at least two cells are period shaped
(line 28 of clean_and_unpivot.py). -/
def rowQualifies (row : List Cell) : Bool :=
  2 ≤ row.countP isPeriodCell

/-- The scanning loop of detect_header_and_clean (lines 24-31): first index
with a qualifying row, `none` when the loop finds nothing. -/
def findHeaderRowGo : List (List Cell) → Nat → Option Nat
  | [], _ => none
  | r :: rs, i => if rowQualifies r then some i else findHeaderRowGo rs (i + 1)

/-- The loop `for i in range(min(10, len(df)))` with break at the first hit. -/
def findHeaderRow (rows : List (List Cell)) : Option Nat :=
  findHeaderRowGo (rows.take 10) 0

/-- A dataframe: named columns plus data rows (each row lists the cells in
column order). -/
structure DataFrame where
  cols : List String
  rows : List (List Cell)
deriving Repr, DecidableEq

/-- Lookup of the running duplicate counter `col_counts[name]`. -/
def lookupCount (counts : List (String × Nat)) (k : String) : Option Nat :=
  (counts.find? (fun p => p.1 == k)).map Prod.snd

/-- Update of the running duplicate counter `col_counts[name] = n`. -/
def setCount (counts : List (String × Nat)) (k : String) (n : Nat) :
    List (String × Nat) :=
  counts.map (fun p => if p.1 == k then (p.1, n) else p)

/-- Construction of the new column names from the header row cells
(lines 35-49 of clean_and_unpivot.py): a non-null cell with non-blank text
yields its stripped text, de-duplicated by suffixing an underscore and a
counter; any other cell yields col_i for its position i. -/
def mkNewColsGo : Nat → List (String × Nat) → List Cell → List String
  | _, _, [] => []
  | i, counts, c :: rest =>
    match c with
    | some s =>
      if strTrim s ≠ "" then
        match lookupCount counts (strTrim s) with
        | some n =>
            (strTrim s ++ "_" ++ toString (n + 1)) ::
              mkNewColsGo (i + 1) (setCount counts (strTrim s) (n + 1)) rest
        | none =>
            strTrim s :: mkNewColsGo (i + 1) ((strTrim s, 0) :: counts) rest
      else ("col_" ++ toString i) :: mkNewColsGo (i + 1) counts rest
    | none => ("col_" ++ toString i) :: mkNewColsGo (i + 1) counts rest

def mkNewCols (cells : List Cell) : List String :=
  mkNewColsGo 0 [] cells

/-- The header-assignment stage of detect_header_and_clean (lines 21-51):
when the scan finds a qualifying row its cells become the column names and
every row up to and including it is dropped; otherwise the frame is left as
it stands, so the pre-existing header (row 0 of the raw file) remains. -/
def assignHeader (df : DataFrame) : DataFrame :=
  match findHeaderRow df.rows with
  | some i => ⟨mkNewCols (df.rows.getD i []), df.rows.drop (i + 1)⟩
  | none => df

/-- Pandas `df.dropna(axis=1, how="all")` (line 54): keep a column position when at
least one row holds a non-null cell there. -/
def keepColIdx (df : DataFrame) (j : Nat) : Bool :=
  df.rows.any (fun r => (r.getD j none).isSome)

def dropAllEmptyCols (df : DataFrame) : DataFrame :=
  let idxs := (List.range df.cols.length).filter (keepColIdx df)
  ⟨idxs.map (fun j => df.cols.getD j ("")),
   df.rows.map (fun r => idxs.map (fun j => r.getD j none))⟩

/-- Pandas `df.dropna(axis=0, how="all")` (line 56). -/
def dropAllEmptyRows (df : DataFrame) : DataFrame :=
  ⟨df.cols, df.rows.filter (fun r => r.any Option.isSome)⟩

/-- Assignment `df.columns = [str(c).strip() for c in df.columns]` of line 58. -/
def stripColNames (df : DataFrame) : DataFrame :=
  ⟨df.cols.map strTrim, df.rows⟩

/-- detect_header_and_clean (lines 15-59 of clean_and_unpivot.py). -/
def detect_header_and_clean (df : DataFrame) : DataFrame :=
  stripColNames (dropAllEmptyRows (dropAllEmptyCols (assignHeader df)))

/-- Year-column predicate of unpivot_years (line 66): the name contains a
slash together with a digit, or its stripped form is a non-empty digit
string. -/
def isYearColName (c : String) : Bool :=
  (c.data.contains '/' && c.data.any Char.isDigit) ||
    (strTrim c ≠ "" && (strTrim c).data.all Char.isDigit)

/-- Year-column detection with its fallback (lines 66-69): when no name
matches, any name containing a digit counts. -/
def yearCols (df : DataFrame) : List String :=
  let ys := df.cols.filter isYearColName
  if ys.isEmpty then df.cols.filter (fun c => c.data.any Char.isDigit) else ys

/-- One record of the long format: identifier values, the year column name as
year_label, and the raw cell as value (lines 80-83). -/
structure LongRecord where
  ids : List (String × Cell)
  year_label : String
  value : Cell
deriving Repr, DecidableEq

/-- Lookup `row[col]`: the cell at the position of the named column. -/
def cellAt (cols : List String) (r : List Cell) (c : String) : Cell :=
  match cols.findIdx? (fun x => x == c) with
  | some j => r.getD j none
  | none => none

/-- The manual melt loop of unpivot_years (lines 77-83): rows outer, year
columns inner, one record per pair. -/
def unpivotRows (cols valid_id_cols year_cols : List String) :
    List (List Cell) → List LongRecord
  | [] => []
  | r :: rs =>
    year_cols.map (fun yc =>
      { ids := valid_id_cols.map (fun ic => (ic, cellAt cols r ic)),
        year_label := yc,
        value := cellAt cols r yc }) ++
      unpivotRows cols valid_id_cols year_cols rs

/-- unpivot_years (lines 61-86 of clean_and_unpivot.py). The fallback
`[df.columns[0]]` is modelled by `take 1`; on a frame with no columns at all
the python code raises there, so theorems about this function assume a
non-empty column list. -/
def unpivot_years (df : DataFrame) (id_cols : List String) : List LongRecord :=
  let year_cols := yearCols df
  let present := id_cols.filter (fun c => df.cols.contains c)
  let valid_id_cols := if present.isEmpty then df.cols.take 1 else present
  unpivotRows df.cols valid_id_cols year_cols df.rows

/-- Identifier-column selection of process_file (lines 106-111): the
candidates are the column names containing no digit; the result is the
first candidate alone, or the leftmost column when there is no candidate. -/
def selectIdCols (cols : List String) : List String :=
  let cands := cols.filter (fun c => !(c.data.any Char.isDigit))
  match cands with
  | [] => cols.take 1
  | c :: _ => [c]

/-- The chain `.str.replace(",", "").str.strip()` applied before numeric coercion
(line 119). -/
def stripThousands (s : String) : String :=
  strTrim (String.mk (s.data.filter (fun ch => !(ch == ','))))

/-- Value of a digit string. -/
def digitsVal (cs : List Char) : Nat :=
  cs.foldl (fun n c => 10 * n + (c.toNat - '0'.toNat)) 0

/-- Coercion `pd.to_numeric(..., errors="coerce")` on one cell text, modelled on
decimal literals: optional sign, digits with at most one point, at least one
digit, the value being the digit mantissa over the matching power of ten;
anything else coerces to NaN, rendered here as `none`. Exponent and
infinity forms, which the pipeline data never contains, are out of scope of
this model. The text nan maps to `none` exactly as the real coercion maps it
to NaN, which the following dropna removes. -/
def toNumeric? (s : String) : Option Rat :=
  let signed : Bool × List Char :=
    match s.data with
    | '-' :: rest => (true, rest)
    | '+' :: rest => (false, rest)
    | _ => (false, s.data)
  let app (m : Nat) (d : Nat) : Option Rat :=
    some (mkRat (if signed.1 then -(m : Int) else (m : Int)) d)
  match splitOnChar '.' (String.mk signed.2) with
  | [ip] =>
    if ip ≠ "" && ip.data.all Char.isDigit then app (digitsVal ip.data) 1
    else none
  | [ip, fp] =>
    if (ip ++ fp) ≠ "" && ip.data.all Char.isDigit && fp.data.all Char.isDigit
    then app (digitsVal (ip.data ++ fp.data)) (10 ^ fp.length)
    else none
  | _ => none

/-- A record of the cleaned output: the value survived numeric coercion. -/
structure CleanRecord where
  ids : List (String × Cell)
  year_label : String
  value : Rat
deriving Repr, DecidableEq

/-- Assignment `long[first_col] = long[first_col].astype(str).str.strip()` of lines
117-118): the first column of the long frame is the first identifier
column. -/
def trimFirstId : List (String × Cell) → List (String × Cell)
  | [] => []
  | (c, v) :: rest => (c, some (strTrim (strOfCell v))) :: rest

/-- Post-unpivot normalization of process_file (lines 114-120): drop rows
with a null value, trim the first column, coerce the value column to
numeric, drop rows whose coercion failed. On an empty record list the python
code raises a key error instead, so theorems about this function assume a
non-empty input. -/
def postUnpivotNormalize (recs : List LongRecord) : List CleanRecord :=
  let recs1 := recs.filter (fun r => r.value.isSome)
  let recs2 := recs1.map (fun r => { r with ids := trimFirstId r.ids })
  recs2.filterMap (fun r =>
    (toNumeric? (stripThousands (strOfCell r.value))).map
      (fun q => ⟨r.ids, r.year_label, q⟩))

/-- process_file (lines 88-121) after the CSV read: header detection and
cleaning, identifier selection, unpivot, normalization. -/
def process_file (df : DataFrame) : List CleanRecord :=
  let df2 := detect_header_and_clean df
  postUnpivotNormalize (unpivot_years df2 (selectIdCols df2.cols))

/-!
Observability subsystem, embedded from src/observability/pipeline_observer.py.
The database tables behind the SQL statements are modelled as lists of rows;
`NOW()` and `datetime.now()` are modelled by an explicit clock argument, and
identifiers handed out by the database are modelled by counters held in the
state. Run identifiers are UUIDs in the code and therefore never falsy, so
the guard `if not self.run_id` is presence of an identifier; the model keeps
its counters at 1 and above.
-/

/-- One row of metadata.pipeline_runs. -/
structure RunRecord where
  run_id : Nat
  pipeline_name : String
  pipeline_stage : String
  source_file : Option String
  metadata : Option String
  status : String
  completed_at : Option Nat
  records_input : Option Nat
  records_processed : Option Nat
  records_loaded : Option Nat
  records_rejected : Option Nat
  duration : Option Nat
  error_message : Option String
  error_details : Option String
deriving Repr, DecidableEq

/-- One row of metadata.data_quality_metrics. -/
structure QualityRecord where
  run_id : Nat
  check_name : String
  check_category : String
  table_name : Option String
  column_name : Option String
  passed : Bool
  metric_value : Option Rat
  threshold_value : Option Rat
  row_count : Option Nat
  failure_count : Option Nat
  details : Option String
deriving Repr, DecidableEq

/-- One row of metadata.field_lineage. -/
structure LineageRecord where
  run_id : Nat
  target_table : String
  target_column : String
  source_file : String
  source_sheet : Option String
  source_column : String
  transformation_logic : String
  transformation_type : String
deriving Repr, DecidableEq

/-- One row of metadata.source_files. -/
structure SourceFileEntry where
  file_id : Nat
  file_path : String
  file_name : String
  file_hash : String
  file_size_bytes : Option Nat
  sheet_count : Option Nat
  row_count : Option Nat
  column_count : Option Nat
  schema_fingerprint : Option String
  last_processed : Option Nat
  processing_count : Nat
  status : String
deriving Repr, DecidableEq

/-- The observer together with the database it writes to: the in-memory
fields run_id and started_at of PipelineObserver plus the four metadata
tables and the id sequences of the database. -/
structure ObserverState where
  run_id : Option Nat
  started_at : Option Nat
  runs : List RunRecord
  quality : List QualityRecord
  lineage : List LineageRecord
  catalog : List SourceFileEntry
  next_run_id : Nat
  next_file_id : Nat
deriving Repr, DecidableEq

/-- A fresh observer over an empty database. -/
def initObserverState : ObserverState :=
  { run_id := none, started_at := none, runs := [], quality := [],
    lineage := [], catalog := [], next_run_id := 1, next_file_id := 1 }

/-- start_run (lines 51-89 of pipeline_observer.py): insert a running run
and remember its identifier. -/
def start_run (pipeline_name pipeline_stage : String)
    (source_file metadata : Option String) (now : Nat)
    (s : ObserverState) : ObserverState × Nat :=
  let rid := s.next_run_id
  ({ s with
      runs := s.runs ++
        [{ run_id := rid, pipeline_name := pipeline_name,
           pipeline_stage := pipeline_stage, source_file := source_file,
           metadata := metadata, status := "running", completed_at := none,
           records_input := none, records_processed := none,
           records_loaded := none, records_rejected := none,
           duration := none, error_message := none, error_details := none }],
      run_id := some rid, started_at := some now, next_run_id := rid + 1 },
   rid)

/-- complete_run (lines 91-147 of pipeline_observer.py): a hard failure when
no run was started, otherwise an update of the tracked run. The raise
happens before any write, so the error case leaves the store untouched; the
in-memory run_id is not cleared by completion. -/
def complete_run (status : String)
    (records_input records_processed records_loaded records_rejected : Option Nat)
    (error_message error_details : Option String) (now : Nat)
    (s : ObserverState) : Except String ObserverState :=
  match s.run_id with
  | none => .error ("No active run to complete. Call start_run() first.")
  | some rid =>
    .ok { s with
      runs := s.runs.map (fun r =>
        if r.run_id = rid then
          { r with
              status := status,
              completed_at := some now,
              records_input := records_input,
              records_processed := records_processed,
              records_loaded := records_loaded,
              records_rejected := records_rejected,
              duration := (s.started_at.map (fun t0 => now - t0)),
              error_message := error_message,
              error_details := error_details }
        else r) }

/-- log_quality_check (lines 152-205 of pipeline_observer.py): a hard
failure when no run was started, otherwise an insert keyed by the current
run identifier. -/
def log_quality_check (check_name : String) (passed : Bool)
    (check_category : String) (table_name column_name : Option String)
    (metric_value threshold_value : Option Rat)
    (row_count failure_count : Option Nat) (details : Option String)
    (s : ObserverState) : Except String ObserverState :=
  match s.run_id with
  | none => .error ("No active run. Call start_run() first.")
  | some rid =>
    .ok { s with
      quality := s.quality ++
        [{ run_id := rid, check_name := check_name,
           check_category := check_category, table_name := table_name,
           column_name := column_name, passed := passed,
           metric_value := metric_value, threshold_value := threshold_value,
           row_count := row_count, failure_count := failure_count,
           details := details }] }

/-- track_lineage (lines 207-247 of pipeline_observer.py): a hard failure
when no run was started, otherwise an insert keyed by the current run
identifier. -/
def track_lineage (target_table target_column source_file source_column
    transformation_logic transformation_type : String)
    (source_sheet : Option String)
    (s : ObserverState) : Except String ObserverState :=
  match s.run_id with
  | none => .error ("No active run. Call start_run() first.")
  | some rid =>
    .ok { s with
      lineage := s.lineage ++
        [{ run_id := rid, target_table := target_table,
           target_column := target_column, source_file := source_file,
           source_sheet := source_sheet, source_column := source_column,
           transformation_logic := transformation_logic,
           transformation_type := transformation_type }] }

/-- The terminal run statuses of the spec state machine: running moves to
one of success, failed, skipped. -/
def isTerminalStatus (st : String) : Bool :=
  st == ("success") || st == ("failed") || st == ("skipped")

/-- Method _compute_file_hash (lines 342-351 of pipeline_observer.py): the constant
text file_not_found for a missing path, otherwise a digest of the content.
The md5 library routine is modelled by an arbitrary digest function passed
as an argument; the file system is a partial map from paths to contents. -/
def computeFileHash (md5 : String → String) (fs : String → Option String)
    (p : String) : String :=
  match fs p with
  | none => "file_not_found"
  | some content => md5 content

/-- Expression `path.stat().st_size if path.exists() else None` of line 272: the byte
size of the content, null for a missing path. -/
def fileSize (fs : String → Option String) (p : String) : Option Nat :=
  (fs p).map String.length

/-- Expression `Path(file_path).name` for the file_name column of a new entry. -/
def pathBaseName (p : String) : String :=
  (splitOnChar '/' p).getLastD p

/-- register_source_file (lines 249-340 of pipeline_observer.py). Lookup is
by path; an entry whose stored hash equals the recomputed one only gets its
last_processed and processing_count bumped, a changed entry gets every
descriptive field overwritten, and an unknown path gets a fresh entry. The
DDL with the column defaults of the insert is not part of src, so a new
entry is modelled with processing_count 1 and last_processed set to the
clock; no claim below depends on these initial values. -/
def register_source_file (md5 : String → String)
    (fs : String → Option String) (now : Nat) (file_path : String)
    (sheet_count row_count column_count : Option Nat)
    (schema_fingerprint : Option String)
    (s : ObserverState) : ObserverState × Nat :=
  let file_hash := computeFileHash md5 fs file_path
  let file_size := fileSize fs file_path
  match s.catalog.find? (fun e => e.file_path == file_path) with
  | some e =>
    if e.file_hash == file_hash then
      ({ s with catalog := s.catalog.map (fun x =>
          if x.file_id = e.file_id then
            { x with
                last_processed := some now,
                processing_count := x.processing_count + 1 }
          else x) },
       e.file_id)
    else
      ({ s with catalog := s.catalog.map (fun x =>
          if x.file_id = e.file_id then
            { x with
                file_hash := file_hash,
                file_size_bytes := file_size,
                last_processed := some now,
                processing_count := x.processing_count + 1,
                schema_fingerprint := schema_fingerprint,
                row_count := row_count,
                column_count := column_count,
                sheet_count := sheet_count }
          else x) },
       e.file_id)
  | none =>
    let fid := s.next_file_id
    ({ s with
        catalog := s.catalog ++
          [{ file_id := fid, file_path := file_path,
             file_name := pathBaseName file_path, file_hash := file_hash,
             file_size_bytes := file_size, sheet_count := sheet_count,
             row_count := row_count, column_count := column_count,
             schema_fingerprint := schema_fingerprint,
             last_processed := some now, processing_count := 1,
             status := "processed" }],
        next_file_id := fid + 1 },
     fid)

/-!
Data-quality checks, embedded from src/observability/data_quality.py.
-/

/-- The anchored pattern of the year-format subcheck (line 276 of
data_quality.py): four digits, a slash, two digits, nothing else. -/
def matchesYearLabelRegex (s : String) : Bool :=
  match s.data with
  | [a, b, c, d, sl, e, f] =>
    a.isDigit && b.isDigit && c.isDigit && d.isDigit &&
      (sl == '/') && e.isDigit && f.isDigit
  | _ => false

/-- The year-format subcheck of check_consistency (lines 273-292 of
data_quality.py) on the year_label column: drop nulls, count values
matching the anchored pattern, divide by the count of non-null values
(1.0 when there are none), pass when the ratio exceeds 0.95. -/
def yearFormatSubcheck (col : List Cell) : Bool :=
  let ys := col.filterMap id
  let valid : Nat := ys.countP matchesYearLabelRegex
  let consistency : Rat :=
    if ys.length = 0 then 1 else mkRat valid ys.length
  decide (mkRat 95 100 < consistency)

/-- The subcheck as claim C9 words it, for comparison with the code: the
check passes iff at least 95 percent of the non-null values of the column
match the period-label shape, a string containing both a digit and a
slash. -/
def specYearFormatSubcheck (col : List Cell) : Bool :=
  let ys := col.filterMap id
  let valid : Nat :=
    ys.countP (fun v => v.data.contains '/' && v.data.any Char.isDigit)
  95 * ys.length ≤ 100 * valid

/-!
Concrete frames, record lists and observer states used by the closed
instance theorems below.
-/

/-- A raw frame whose real header sits below one meta row. -/
def c1df : DataFrame :=
  ⟨["col_0", "col_1", "col_2"],
   [[some ("Ministry of Health Annual Report"), none, none],
    [some ("Indicator"), some ("2016/17"), some ("2017/18")],
    [some ("SBA"), some ("80"), some ("85")]]⟩

/-- A cleaned frame with two identifier rows and two year columns. -/
def c2df : DataFrame :=
  ⟨["Indicator", "2016/17", "2017/18"],
   [[some ("A"), some ("1"), some ("2")], [some ("B"), some ("3"), some ("4")]]⟩

/-- An unpivoted record list with one coercible value, one value that fails
coercion, and one null value. -/
def c4recs : List LongRecord :=
  [⟨[("Indicator", some (" A "))], "2016/17", some ("1,234")⟩,
   ⟨[("Indicator", some ("A"))], "2017/18", some ("N/A")⟩,
   ⟨[("Indicator", some ("A"))], "2018/19", none⟩]

def c6md5 : String → String := fun content => content ++ "-digest"

def c6fs : String → Option String :=
  fun p => if p == ("data/raw/a.csv") then some ("payload") else none

/-- A catalog entry whose stored hash equals the digest of the current file
content. -/
def c6entry : SourceFileEntry :=
  { file_id := 1, file_path := "data/raw/a.csv", file_name := "a.csv",
    file_hash := "payload-digest", file_size_bytes := some 7,
    sheet_count := some 1, row_count := some 10, column_count := some 3,
    schema_fingerprint := some ("schema-v1"), last_processed := some 5,
    processing_count := 2, status := "processed" }

def c6state : ObserverState := { initObserverState with catalog := [c6entry] }

/-- A state with one started run. -/
def c7s1 : ObserverState :=
  (start_run ("uganda_health_etl") ("transform") (some ("data/raw/a.csv"))
    none 100 initObserverState).1

/-- The state after the run reached the terminal status success. -/
def c7s2 : ObserverState :=
  ((complete_run ("success") (some 10) (some 10) (some 9) (some 1)
      none none 200 c7s1).toOption).getD c7s1

/-- The state after a further quality check logged against the completed
run. -/
def c7s3 : ObserverState :=
  ((log_quality_check ("completeness_value") true ("completeness")
      none none none none none none none c7s2).toOption).getD c7s2

def c10md5 : String → String := fun content => content

def c10fs : String → Option String := fun _ => none

/-!
Helper lemmas.
-/

theorem findHeaderRowGo_some (rs : List (List Cell)) :
    ∀ i j, findHeaderRowGo rs i = some j →
      i ≤ j ∧ j - i < rs.length ∧ rowQualifies (rs.getD (j - i) []) = true ∧
        ∀ k, k < j - i → rowQualifies (rs.getD k []) = false := by
  induction rs with
  | nil => intro i j h; simp [findHeaderRowGo] at h
  | cons r rest ih =>
    intro i j h
    by_cases hq : rowQualifies r = true
    · simp [findHeaderRowGo, hq] at h
      subst h
      refine ⟨Nat.le_refl _, by simp, by simpa using hq, by omega⟩
    · have hq' : rowQualifies r = false := by simpa using hq
      simp [findHeaderRowGo, hq'] at h
      obtain ⟨h1, h2, h3, h4⟩ := ih (i + 1) j h
      have hji : j - i = (j - (i + 1)) + 1 := by omega
      refine ⟨by omega, by simp; omega, ?_, ?_⟩
      · rw [hji]; simpa using h3
      · intro k hk
        match k with
        | 0 => simpa using hq'
        | Nat.succ m =>
          have hm : m < j - (i + 1) := by omega
          simpa using h4 m hm

theorem findHeaderRowGo_none (rs : List (List Cell)) :
    ∀ i, findHeaderRowGo rs i = none →
      ∀ k, k < rs.length → rowQualifies (rs.getD k []) = false := by
  induction rs with
  | nil => intro i _ k hk; simp at hk
  | cons r rest ih =>
    intro i h k hk
    by_cases hq : rowQualifies r = true
    · simp [findHeaderRowGo, hq] at h
    · have hq' : rowQualifies r = false := by simpa using hq
      simp [findHeaderRowGo, hq'] at h
      match k with
      | 0 => simpa using hq'
      | Nat.succ m =>
        have hm : m < rest.length := by simpa using hk
        simpa using ih (i + 1) h m hm

theorem getD_take {α : Type} (l : List α) :
    ∀ (n k : Nat) (d : α), k < n → (l.take n).getD k d = l.getD k d := by
  induction l with
  | nil => intro n k d _; simp
  | cons x xs ih =>
    intro n k d hk
    match n, k with
    | n + 1, 0 => simp
    | n + 1, k + 1 => simpa using ih n k d (by omega)

theorem unpivotRows_length (cols v y : List String)
    (rows : List (List Cell)) :
    (unpivotRows cols v y rows).length = rows.length * y.length := by
  induction rows with
  | nil => simp [unpivotRows]
  | cons r rest ih => simp [unpivotRows, ih]; ring

theorem find?_eq_filter_head? {α : Type} (p : α → Bool) (l : List α) :
    l.find? p = (l.filter p).head? := by
  induction l with
  | nil => rfl
  | cons c cs ih =>
    cases h : p c with
    | true => simp only [List.find?, List.filter, h, List.head?]
    | false => simp only [List.find?, List.filter, h, ih]

theorem find?_append_none {α : Type} (p : α → Bool) (l1 l2 : List α)
    (h : l1.find? p = none) : (l1 ++ l2).find? p = l2.find? p := by
  induction l1 with
  | nil => simp
  | cons c cs ih =>
    cases hc : p c with
    | true =>
      simp only [List.find?, hc] at h
      exact Option.noConfusion h
    | false =>
      simp only [List.find?, hc] at h
      simpa only [List.cons_append, List.find?, hc] using ih h

theorem mkNewColsGo_distinct (cells : List Cell) :
    ∀ (i : Nat) (counts : List (String × Nat)),
      (∀ c ∈ cells, ∃ s, c = some s ∧ strTrim s ≠ "") →
      (∀ c ∈ cells, ∀ s, c = some s → lookupCount counts (strTrim s) = none) →
      (cells.map (fun c => strTrim (strOfCell c))).Nodup →
      mkNewColsGo i counts cells =
        cells.map (fun c => strTrim (strOfCell c)) := by
  induction cells with
  | nil => intro i counts _ _ _; rfl
  | cons c rest ih =>
    intro i counts h1 h2 hnodup
    obtain ⟨s, hcs, hs⟩ := h1 c (List.mem_cons_self c rest)
    subst hcs
    have hn : lookupCount counts (strTrim s) = none :=
      h2 (some s) (List.mem_cons_self _ rest) s rfl
    have hnodup' := (List.nodup_cons.mp hnodup).2
    have hnotmem := (List.nodup_cons.mp hnodup).1
    simp only [mkNewColsGo, List.map_cons]
    rw [if_pos hs, hn]
    refine List.cons_eq_cons.mpr ⟨rfl, ?_⟩
    refine ih (i + 1) ((strTrim s, 0) :: counts)
      (fun d hd => h1 d (List.mem_cons_of_mem _ hd)) ?_ hnodup'
    intro d hd t hdt
    have hfalse : (strTrim s == strTrim t) = false := by
      cases hb : (strTrim s == strTrim t) with
      | false => rfl
      | true =>
        exfalso
        apply hnotmem
        have hmem : strTrim (strOfCell d) ∈
            rest.map (fun c => strTrim (strOfCell c)) :=
          List.mem_map_of_mem _ hd
        have heq : strTrim s = strTrim t := by simpa using hb
        rw [hdt] at hmem
        simpa [strOfCell, ← heq] using hmem
    have htail := h2 d (List.mem_cons_of_mem _ hd) t hdt
    unfold lookupCount at htail ⊢
    simp only [List.find?, hfalse]
    exact htail

theorem mkNewCols_of_distinct (cells : List Cell)
    (h1 : ∀ c ∈ cells, ∃ s, c = some s ∧ strTrim s ≠ "")
    (h2 : (cells.map (fun c => strTrim (strOfCell c))).Nodup) :
    mkNewCols cells = cells.map (fun c => strTrim (strOfCell c)) :=
  mkNewColsGo_distinct cells 0 []
    h1 (fun _ _ _ _ => rfl) h2

theorem postUnpivotNormalize_eq (recs : List LongRecord) :
    postUnpivotNormalize recs =
      recs.filterMap (fun r =>
        match r.value with
        | none => none
        | some s =>
          (toNumeric? (stripThousands s)).map
            (fun q => CleanRecord.mk (trimFirstId r.ids) r.year_label q)) := by
  induction recs with
  | nil => rfl
  | cons r rest ih =>
    simp only [postUnpivotNormalize] at ih ⊢
    cases hv : r.value with
    | none =>
      simp [List.filter_cons, List.filterMap_cons, hv, ih]
    | some s =>
      simp only [List.filterMap_map] at ih
      cases htn : toNumeric? (stripThousands s) <;>
        simpa [List.filter_cons, List.filterMap_cons, hv, strOfCell, htn]
          using ih

theorem registerUnchangedAux (md5 : String → String)
    (fs : String → Option String) (now : Nat)
    (sc rc cc : Option Nat) (schema : Option String)
    (s : ObserverState) (path : String) (e : SourceFileEntry)
    (hfind : s.catalog.find? (fun x => x.file_path == path) = some e)
    (hhash : e.file_hash = computeFileHash md5 fs path) :
    register_source_file md5 fs now path sc rc cc schema s =
      ({ s with catalog := s.catalog.map (fun x =>
          if x.file_id = e.file_id then
            { x with
                last_processed := some now,
                processing_count := x.processing_count + 1 }
          else x) },
       e.file_id) := by
  have hbeq : (e.file_hash == computeFileHash md5 fs path) = true := by
    rw [hhash]
    exact beq_self_eq_true _
  simp only [register_source_file, hfind, hbeq, if_true]

/-!
Claim theorems.
-/

/-- Claim C1: detect_header_and_clean scans at most the first 10 rows and
selects as header the first row with at least 2 period-shaped cells (a
string containing both a digit and a slash); the cells of that row become
the column names (verbatim, after trimming, whenever they are non-blank and
pairwise distinct; in general via the de-duplicating mkNewCols) and all
rows at or above it are dropped; when no such row exists in the scanned
window the frame keeps its pre-existing header, that is row 0 of the raw
file stays the header. -/
theorem header_detection_spec (df : DataFrame) :
    (∀ i, findHeaderRow df.rows = some i →
      i < min 10 df.rows.length ∧
      rowQualifies (df.rows.getD i []) = true ∧
      (∀ j, j < i → rowQualifies (df.rows.getD j []) = false) ∧
      (assignHeader df).cols = mkNewCols (df.rows.getD i []) ∧
      (assignHeader df).rows = df.rows.drop (i + 1) ∧
      ((∀ c ∈ df.rows.getD i [], ∃ s, c = some s ∧ strTrim s ≠ "") →
        ((df.rows.getD i []).map (fun c => strTrim (strOfCell c))).Nodup →
        (assignHeader df).cols =
          (df.rows.getD i []).map (fun c => strTrim (strOfCell c)))) ∧
    (findHeaderRow df.rows = none →
      (∀ j, j < min 10 df.rows.length →
        rowQualifies (df.rows.getD j []) = false) ∧
      assignHeader df = df) ∧
    detect_header_and_clean df =
      stripColNames (dropAllEmptyRows (dropAllEmptyCols (assignHeader df))) := by
  refine ⟨?_, ?_, rfl⟩
  · intro i h
    obtain ⟨-, hlen, hq, hleast⟩ :=
      findHeaderRowGo_some (df.rows.take 10) 0 i h
    simp only [Nat.sub_zero] at hlen hq hleast
    have hmin : i < min 10 df.rows.length := by
      simpa [List.length_take] using hlen
    have hi10 : i < 10 := lt_of_lt_of_le hmin (min_le_left _ _)
    have hq' : rowQualifies (df.rows.getD i []) = true := by
      rw [← getD_take df.rows 10 i [] hi10]; exact hq
    have hcols : (assignHeader df).cols = mkNewCols (df.rows.getD i []) := by
      simp [assignHeader, h]
    refine ⟨hmin, hq', ?_, hcols, ?_, ?_⟩
    · intro j hj
      have hj10 : j < 10 := lt_trans hj hi10
      rw [← getD_take df.rows 10 j [] hj10]
      exact hleast j hj
    · simp [assignHeader, h]
    · intro hall hnodup
      rw [hcols]
      exact mkNewCols_of_distinct _ hall hnodup
  · intro h
    constructor
    · intro j hj
      have hj10 : j < 10 := lt_of_lt_of_le hj (min_le_left _ _)
      have hjlen : j < (df.rows.take 10).length := by
        simpa [List.length_take] using hj
      rw [← getD_take df.rows 10 j [] hj10]
      exact findHeaderRowGo_none (df.rows.take 10) 0 h j hjlen
    · simp [assignHeader, h]

/-- Closed instance of C1 on a frame whose header sits below one meta row:
the scan selects row 1, its trimmed cells become the column names, and the
meta row and header row are dropped. -/
theorem header_detection_witness :
    (assignHeader c1df).cols = ["Indicator", "2016/17", "2017/18"] ∧
    (assignHeader c1df).rows = [[some ("SBA"), some ("80"), some ("85")]] := by
  have h := (header_detection_spec c1df).1 1 (by decide)
  have hcols := h.2.2.2.2.2 (by decide) (by decide)
  refine ⟨hcols.trans (by decide), h.2.2.2.2.1.trans (by decide)⟩

/-- Claim C2: on a cleaned frame with r rows and k detected year columns,
unpivot_years produces exactly r times k records, before any null or
failed-coercion filtering. The non-empty column list rules out the frame on
which the python fallback raises instead of producing records. -/
theorem unpivot_row_count (df : DataFrame) (id_cols : List String)
    (h : df.cols ≠ []) :
    (unpivot_years df id_cols).length =
      df.rows.length * (yearCols df).length := by
  simp [unpivot_years, unpivotRows_length]

/-- Closed instance of C2: two identifier rows and two year columns give
four records. -/
theorem unpivot_row_count_witness :
    c2df.cols ≠ [] ∧ (unpivot_years c2df ["Indicator"]).length = 4 :=
  ⟨by decide,
   (unpivot_row_count c2df ["Indicator"] (by decide)).trans (by decide)⟩

/-- Counterexample to claim C3: the claim says the identifier columns are
exactly all the non-year columns, but on a frame with two non-year columns
the code keeps only the first: selectIdCols returns just Region, not Region
and Indicator. -/
theorem id_cols_claim_counterexample :
    selectIdCols ["Region", "Indicator", "2016/17", "2017/18"] ≠
      (["Region", "Indicator", "2016/17", "2017/18"]).filter
        (fun c => !(isYearColName c)) := by decide

/-- Claim C3 as amended: process_file hands the unpivot a single identifier
column, the first column whose name contains no digit; only when every
column name contains a digit is the leftmost column used as the sole
identifier. -/
theorem selectIdCols_first_nondigit (cols : List String) :
    selectIdCols cols =
      (match cols.find? (fun c => !(c.data.any Char.isDigit)) with
       | some c => [c]
       | none => cols.take 1) := by
  unfold selectIdCols
  rw [find?_eq_filter_head?]
  cases hf : cols.filter (fun c => !(c.data.any Char.isDigit)) <;> simp [hf]

/-- Claim C4: post-unpivot normalization drops every record whose value
cell is absent, trims the identifier field, coerces the value by stripping
commas and surrounding whitespace, and drops every record whose value fails
the coercion; in particular the cell 1,234 coerces to the number 1234 and a
cell N/A is dropped. The non-empty hypothesis rules out the empty frame, on
which the python raises a key error before any of this runs. -/
theorem postUnpivotNormalize_spec (recs : List LongRecord)
    (h : recs ≠ []) :
    postUnpivotNormalize recs =
      recs.filterMap (fun r =>
        match r.value with
        | none => none
        | some s =>
          (toNumeric? (stripThousands s)).map
            (fun q => CleanRecord.mk (trimFirstId r.ids) r.year_label q)) ∧
    toNumeric? (stripThousands ("1,234")) = some 1234 ∧
    toNumeric? (stripThousands ("N/A")) = none :=
  ⟨postUnpivotNormalize_eq recs, by decide, by decide⟩

/-- Closed instance of C4 on three records: the comma value survives as
1234 with its identifier trimmed, the N/A record and the null record are
dropped. -/
theorem postUnpivotNormalize_witness :
    c4recs ≠ [] ∧
    postUnpivotNormalize c4recs =
      [⟨[("Indicator", some ("A"))], "2016/17", 1234⟩] := by
  refine ⟨by decide, ?_⟩
  have h := (postUnpivotNormalize_spec c4recs (by decide)).1
  exact h.trans (by decide)

/-- Claim C5: on the raw frame with columns Indicator, 2016/17, 2017/18 and
the single row Skilled birth attendance, 80, 85, the cleaned output is
exactly two records, one per year column, carrying the identifier and the
numeric values 80 and 85. -/
theorem process_file_scenario :
    process_file ⟨["Indicator", "2016/17", "2017/18"],
      [[some ("Skilled birth attendance"), some ("80"), some ("85")]]⟩ =
    [{ ids := [("Indicator", some ("Skilled birth attendance"))],
       year_label := "2016/17", value := 80 },
     { ids := [("Indicator", some ("Skilled birth attendance"))],
       year_label := "2017/18", value := 85 }] := by decide

/-- The strict 95 percent threshold of the year-format subcheck, as a
cross-multiplied count comparison. -/
theorem mkRat_threshold_iff (v n : Nat) (hn : n ≠ 0) :
    (mkRat 95 100 < mkRat v n) ↔ 95 * n < 100 * v := by
  have hnq : (0:ℚ) < (n:ℚ) := by exact_mod_cast Nat.pos_of_ne_zero hn
  rw [Rat.mkRat_eq_div, Rat.mkRat_eq_div]
  push_cast
  rw [div_lt_div_iff₀ (by norm_num : (0:ℚ) < 100) hnq]
  constructor
  · intro h'
    have h2 : (95:ℚ) * (n:ℚ) < 100 * (v:ℚ) := by linarith
    exact_mod_cast h2
  · intro h'
    have h2 : (95:ℚ) * (n:ℚ) < 100 * (v:ℚ) := by exact_mod_cast h'
    linarith

/-- Appending a fresh entry for a path absent from the catalog makes the
path lookup find exactly that entry. -/
theorem find?_append_singleton_self (l : List SourceFileEntry)
    (e : SourceFileEntry) (path : String)
    (hnew : l.find? (fun x => x.file_path == path) = none)
    (he : e.file_path = path) :
    (l ++ [e]).find? (fun x => x.file_path == path) = some e := by
  rw [find?_append_none _ _ _ hnew]
  simp [List.find?, he]

/-- Counterexample to claim C9: the code and the claim disagree both on the
shape (the code matches the anchored pattern of four digits, slash, two
digits, not any string containing a digit and a slash) and on the boundary
(strictly more than 95 percent, not at least 95 percent): a column of one
value 1/2 passes per the claim but fails per the code, and a column where
exactly 19 of 20 values match fails per the code though the claim accepts
it. -/
theorem year_format_claim_counterexample :
    yearFormatSubcheck [some ("1/2")] ≠ specYearFormatSubcheck [some ("1/2")] ∧
    yearFormatSubcheck
        (List.replicate 19 (some ("2016/17")) ++ [some ("x")]) = false ∧
    specYearFormatSubcheck
        (List.replicate 19 (some ("2016/17")) ++ [some ("x")]) = true := by
  decide

/-- Claim C9 as amended: the year-format subcheck passes iff the year_label
column has no non-null values, or strictly more than 95 percent of its
non-null values match the anchored pattern of four digits, a slash and two
digits. -/
theorem year_format_subcheck_spec (col : List Cell) :
    yearFormatSubcheck col = true ↔
      ((col.filterMap id).length = 0 ∨
        95 * (col.filterMap id).length <
          100 * (col.filterMap id).countP matchesYearLabelRegex) := by
  by_cases h : (col.filterMap id).length = 0
  · simp only [yearFormatSubcheck, h, if_pos, decide_eq_true_eq, eq_self_iff_true,
      true_or, iff_true]
    rw [Rat.mkRat_eq_div]
    norm_num
  · simp [yearFormatSubcheck, h,
      mkRat_threshold_iff ((col.filterMap id).countP matchesYearLabelRegex)
        (col.filterMap id).length h]

/-- Claim C10: for a path absent from the file system register_source_file
does not fail: the fingerprint is the constant file_not_found, the byte
size is null, any other missing path gets the same fingerprint, and a
second registration of the same missing path takes the unchanged branch,
bumping only last_processed and processing_count of the entry the first
registration inserted. -/
theorem register_missing_path (md5 : String → String)
    (fs : String → Option String) (now1 now2 : Nat)
    (sc rc cc sc2 rc2 cc2 : Option Nat) (schema schema2 : Option String)
    (s : ObserverState) (path p2 : String)
    (hmiss : fs path = none) (hmiss2 : fs p2 = none)
    (hnew : s.catalog.find? (fun x => x.file_path == path) = none) :
    computeFileHash md5 fs path = "file_not_found" ∧
    fileSize fs path = none ∧
    computeFileHash md5 fs p2 = computeFileHash md5 fs path ∧
    register_source_file md5 fs now2 path sc2 rc2 cc2 schema2
        (register_source_file md5 fs now1 path sc rc cc schema s).1 =
      ({ (register_source_file md5 fs now1 path sc rc cc schema s).1 with
          catalog := (register_source_file md5 fs now1 path sc rc cc
              schema s).1.catalog.map (fun x =>
            if x.file_id =
                (register_source_file md5 fs now1 path sc rc cc schema s).2
            then
              { x with
                  last_processed := some now2,
                  processing_count := x.processing_count + 1 }
            else x) },
       (register_source_file md5 fs now1 path sc rc cc schema s).2) := by
  have hh : computeFileHash md5 fs path = "file_not_found" := by
    simp [computeFileHash, hmiss]
  have hsz : fileSize fs path = none := by simp [fileSize, hmiss]
  have hh2 : computeFileHash md5 fs p2 = computeFileHash md5 fs path := by
    simp [computeFileHash, hmiss, hmiss2]
  refine ⟨hh, hsz, hh2, ?_⟩
  have h1 : register_source_file md5 fs now1 path sc rc cc schema s =
      ({ s with
          catalog := s.catalog ++
            [{ file_id := s.next_file_id, file_path := path,
               file_name := pathBaseName path,
               file_hash := computeFileHash md5 fs path,
               file_size_bytes := fileSize fs path, sheet_count := sc,
               row_count := rc, column_count := cc,
               schema_fingerprint := schema, last_processed := some now1,
               processing_count := 1, status := "processed" }],
          next_file_id := s.next_file_id + 1 },
       s.next_file_id) := by
    simp only [register_source_file, hnew]
  rw [h1]
  exact registerUnchangedAux md5 fs now2 sc2 rc2 cc2 schema2 _ path
    { file_id := s.next_file_id, file_path := path,
      file_name := pathBaseName path,
      file_hash := computeFileHash md5 fs path,
      file_size_bytes := fileSize fs path, sheet_count := sc,
      row_count := rc, column_count := cc, schema_fingerprint := schema,
      last_processed := some now1, processing_count := 1,
      status := "processed" }
    (find?_append_singleton_self s.catalog _ path hnew rfl) rfl

/-- Closed instance of C10: registering the same missing path twice yields
one catalog entry with the constant fingerprint, no byte size, processing
count 2 and the second clock value. -/
theorem register_missing_path_witness :
    computeFileHash c10md5 c10fs ("missing.csv") = "file_not_found" ∧
    register_source_file c10md5 c10fs 2 ("missing.csv") none none none none
        (register_source_file c10md5 c10fs 1 ("missing.csv") none none none
          none initObserverState).1 =
      ({ initObserverState with
          catalog := [{
            file_id := 1, file_path := "missing.csv",
            file_name := "missing.csv", file_hash := "file_not_found",
            file_size_bytes := none, sheet_count := none, row_count := none,
            column_count := none, schema_fingerprint := none,
            last_processed := some 2, processing_count := 2,
            status := "processed" }],
          next_file_id := 2 },
       1) := by
  have h := register_missing_path c10md5 c10fs 1 2 none none none none none
    none none none initObserverState ("missing.csv") ("other.csv")
    rfl rfl rfl
  exact ⟨h.1, (h.2.2.2).trans (by decide)⟩

/-- Claim C6: when the stored fingerprint of a cataloged path equals the
freshly computed one, register_source_file leaves fingerprint, schema
snapshot, byte size, and the sheet, row and column counts of the entry
untouched: the only changes are processing_count plus one and a fresh
last_processed, and the descriptive fields are overwritten only in the
other branch, where the fingerprint differs. -/
theorem register_unchanged_frame (md5 : String → String)
    (fs : String → Option String) (now : Nat)
    (sc rc cc : Option Nat) (schema : Option String)
    (s : ObserverState) (path : String) (e : SourceFileEntry)
    (hfind : s.catalog.find? (fun x => x.file_path == path) = some e)
    (hhash : e.file_hash = computeFileHash md5 fs path) :
    register_source_file md5 fs now path sc rc cc schema s =
      ({ s with catalog := s.catalog.map (fun x =>
          if x.file_id = e.file_id then
            { x with
                last_processed := some now,
                processing_count := x.processing_count + 1 }
          else x) },
       e.file_id) :=
  registerUnchangedAux md5 fs now sc rc cc schema s path e hfind hhash

/-- Closed instance of C6: re-registering an unchanged file bumps only
last_processed and processing_count of its entry. -/
theorem register_unchanged_witness :
    register_source_file c6md5 c6fs 99 ("data/raw/a.csv")
        (some 2) (some 20) (some 4) (some ("schema-v2")) c6state =
      ({ c6state with
          catalog := [{ c6entry with
            last_processed := some 99, processing_count := 3 }] },
       1) :=
  (register_unchanged_frame c6md5 c6fs 99 (some 2) (some 20) (some 4)
      (some ("schema-v2")) c6state ("data/raw/a.csv") c6entry
      (by decide) (by decide)).trans (by decide)

/-- Counterexample to claim C7: completing a run does not clear the
observer's run pointer, so a quality check logged after complete_run is
accepted and attaches its record to run 1 even though that run already
carries the terminal status success. -/
theorem quality_after_complete_counterexample :
    (log_quality_check ("completeness_value") true ("completeness")
        none none none none none none none c7s2).isOk = true ∧
    c7s3.quality.map (fun q => q.run_id) = [1] ∧
    c7s3.runs.map (fun r => (r.run_id, r.status)) = [(1, "success")] ∧
    isTerminalStatus ("success") = true := by decide

/-- Claim C7 as amended: log_quality_check and track_lineage refuse to
write exactly when no run has been started, and every record they accept
carries the current run identifier; since completion does not clear that
identifier, records can still attach to a run already in a terminal
state. -/
theorem quality_lineage_guard
    (cn : String) (p : Bool) (cc : String) (tn col : Option String)
    (mv tv : Option Rat) (rcnt fcnt : Option Nat) (det : Option String)
    (tt tc sf scol tlg tty : String) (ss : Option String)
    (s : ObserverState) :
    (s.run_id = none →
      log_quality_check cn p cc tn col mv tv rcnt fcnt det s =
        .error ("No active run. Call start_run() first.") ∧
      track_lineage tt tc sf scol tlg tty ss s =
        .error ("No active run. Call start_run() first.")) ∧
    (∀ rid, s.run_id = some rid →
      log_quality_check cn p cc tn col mv tv rcnt fcnt det s =
        .ok { s with quality := s.quality ++
          [{ run_id := rid, check_name := cn, check_category := cc,
             table_name := tn, column_name := col, passed := p,
             metric_value := mv, threshold_value := tv, row_count := rcnt,
             failure_count := fcnt, details := det }] } ∧
      track_lineage tt tc sf scol tlg tty ss s =
        .ok { s with lineage := s.lineage ++
          [{ run_id := rid, target_table := tt, target_column := tc,
             source_file := sf, source_sheet := ss, source_column := scol,
             transformation_logic := tlg,
             transformation_type := tty }] }) := by
  constructor
  · intro h
    exact ⟨by simp [log_quality_check, h], by simp [track_lineage, h]⟩
  · intro rid h
    exact ⟨by simp [log_quality_check, h], by simp [track_lineage, h]⟩

/-- Closed instance of the amended C7: on the fresh observer both writers
fail hard, and on the completed run of c7s2 the quality writer still
appends a record keyed by run 1. -/
theorem quality_lineage_guard_witness :
    log_quality_check ("k") true ("general") none none none none none none
        none initObserverState =
      .error ("No active run. Call start_run() first.") ∧
    log_quality_check ("k") true ("general") none none none none none none
        none c7s2 =
      .ok { c7s2 with quality := c7s2.quality ++
        [{ run_id := 1, check_name := "k", check_category := "general",
           table_name := none, column_name := none, passed := true,
           metric_value := none, threshold_value := none, row_count := none,
           failure_count := none, details := none }] } :=
  ⟨((quality_lineage_guard ("k") true ("general") none none none none none
      none none ("t") ("c") ("f") ("sc") ("l") ("ty") none
      initObserverState).1 rfl).1,
   ((quality_lineage_guard ("k") true ("general") none none none none none
      none none ("t") ("c") ("f") ("sc") ("l") ("ty") none
      c7s2).2 1 (by decide)).1⟩

/-- Claim C8: complete_run called when no run has been started raises the
programming error instead of silently doing nothing, and since the raise
happens before any write, no updated store is ever produced by such a
call. -/
theorem complete_run_requires_start (status : String)
    (ri rp rl rr : Option Nat) (em ed : Option String) (now : Nat)
    (s : ObserverState) (h : s.run_id = none) :
    complete_run status ri rp rl rr em ed now s =
      .error ("No active run to complete. Call start_run() first.") ∧
    ∀ s2, ¬ (complete_run status ri rp rl rr em ed now s = .ok s2) := by
  have he : complete_run status ri rp rl rr em ed now s =
      .error ("No active run to complete. Call start_run() first.") := by
    simp [complete_run, h]
  exact ⟨he, fun s2 hok => by rw [he] at hok; exact Except.noConfusion hok⟩

/-- Closed instance of C8 on the fresh observer. -/
theorem complete_run_requires_start_witness :
    complete_run ("success") none none none none none none 0
        initObserverState =
      .error ("No active run to complete. Call start_run() first.") :=
  (complete_run_requires_start ("success") none none none none none none 0
    initObserverState rfl).1
